import Mathlib

/-!
Verification of the credential-authentication core of `s3-minio-manager`
(files `auth_store.py`, the login/session parts of `app.py`, and the
settings load/save functions of `s3.py`) against its specification.

The Python code is shallowly embedded:

* SQLite's `users` table becomes a list of `UserRow` plus a counter for
  the `AUTOINCREMENT` id; the `UNIQUE` column constraint on `username`
  becomes the uniqueness guard of the insert operation.
* `hashlib.pbkdf2_hmac` (an external library, not repository code) is an
  abstract parameter `hashFn : String → String → Nat → String` standing
  for the base64-encoded derived key of (password, salt, iterations).
  `secrets.token_bytes` salt generation becomes an explicit `freshSalt`
  argument; `secrets.compare_digest` is functionally string equality.
* Strings are Lean `String`s; `.strip().lower()` and `.isalnum()` are
  re-implemented over the character list (faithful on the ASCII
  fragment); Python truthiness of a string is non-emptiness.
* Exceptions become `Except` / explicit error constructors; a Python
  `try/except: pass` around a block maps every error path to the
  fall-through result.
-/

/-- The module-level default cost factor `PBKDF2_ITERATIONS = 240_000`
of `auth_store.py`. -/
def PBKDF2_ITERATIONS : Nat := 240000

/-- Python's default `str.strip()` whitespace set (ASCII fragment). -/
def pyIsSpace (c : Char) : Bool :=
  c = ' ' || c = '\t' || c = '\n' || c = '\x0d' || c = '\x0b' || c = '\x0c'

/-- `str.strip()`: drop leading and trailing whitespace. -/
def pyStrip (s : List Char) : List Char :=
  ((s.dropWhile pyIsSpace).reverse.dropWhile pyIsSpace).reverse

/-- `str.lower()` on one character (ASCII fragment). -/
def pyLowerChar (c : Char) : Char :=
  if 'A' ≤ c && c ≤ 'Z' then Char.ofNat (c.toNat + 32) else c

/-- Normalization applied to usernames throughout `auth_store.py` and
`app.py`: `username.strip().lower()` (ASCII fragment). -/
def pyNormalize (u : String) : String := ⟨(pyStrip u.data).map pyLowerChar⟩

/-- A row of the `users` table created by `_ensure_db` in `auth_store.py`:
`id, username, password_hash, salt, iterations, created_at, updated_at,
last_login` (the last column is nullable). -/
structure UserRow where
  id : Nat
  username : String
  password_hash : String
  salt : String
  iterations : Nat
  created_at : String
  updated_at : String
  last_login : Option String
deriving DecidableEq, Repr

/-- The embedded auth database: the rows of the `users` table in insertion
order, plus the next `AUTOINCREMENT` id. -/
structure AuthDB where
  rows : List UserRow
  nextId : Nat
deriving DecidableEq, Repr

/-- Errors surfaced by the store: `duplicateUser` is sqlite's
`IntegrityError` raised by the `UNIQUE` constraint on `username`. -/
inductive AuthErr where
  | duplicateUser
deriving DecidableEq, Repr

deriving instance DecidableEq for Except

/-- `_hash_password(password, salt=None, iterations=PBKDF2_ITERATIONS)` of
`auth_store.py`. `hashFn` abstracts `pbkdf2_hmac` composed with base64;
`defaultIters` is the module constant in scope at call time; `freshSalt`
is the `secrets.token_bytes(SALT_BYTES)` value drawn when `salt is None`.
Returns `(hash, salt, iterations)` exactly as the source does. -/
def hash_password (hashFn : String → String → Nat → String)
    (defaultIters : Nat) (freshSalt : String) (password : String)
    (salt : Option String) (iterations : Option Nat) :
    String × String × Nat :=
  let s := salt.getD freshSalt
  let it := iterations.getD defaultIters
  (hashFn password s it, s, it)

/-- `get_user(username)` of `auth_store.py`: case-insensitive lookup of the
first row whose `username` column equals the normalized argument. -/
def getUserRow (db : AuthDB) (username : String) : Option UserRow :=
  db.rows.find? (fun r => r.username = pyNormalize username)

/-- `user_count()` of `auth_store.py`. -/
def user_count (db : AuthDB) : Nat := db.rows.length

/-- `create_user(username, password)` of `auth_store.py`: normalizes the
username, hashes the password with a fresh salt at the current default
iteration count, and inserts the new row.  The source performs no
pre-check: the `UNIQUE` constraint on the `username` column rejects a
duplicate insert with `IntegrityError`, modelled here as the uniqueness
guard of the insert returning `duplicateUser`. -/
def create_user (hashFn : String → String → Nat → String)
    (defaultIters : Nat) (freshSalt : String) (now : String)
    (db : AuthDB) (username password : String) : Except AuthErr AuthDB :=
  let un := pyNormalize username
  let h := hash_password hashFn defaultIters freshSalt password none none
  if db.rows.any (fun r => r.username = un) then
    .error .duplicateUser
  else
    .ok ⟨db.rows ++ [⟨db.nextId, un, h.1, h.2.1, h.2.2, now, now, none⟩],
         db.nextId + 1⟩

/-- `verify_user(username, password)` of `auth_store.py`: looks up the row
by normalized username; if absent returns `None`; otherwise recomputes the
hash via `_hash_password(password, salt=stored, iterations=stored)` and
compares with `secrets.compare_digest`; on match updates
`last_login`/`updated_at` and returns the id.  `defaultIters` and
`freshSalt` are the module default and the would-be fresh salt, both in
scope but overridden by the stored per-row values. -/
def verify_user (hashFn : String → String → Nat → String)
    (defaultIters : Nat) (freshSalt : String) (now : String)
    (db : AuthDB) (username password : String) : Option Nat × AuthDB :=
  match db.rows.find? (fun r => r.username = pyNormalize username) with
  | none => (none, db)
  | some row =>
    let computed :=
      (hash_password hashFn defaultIters freshSalt password
        (some row.salt) (some row.iterations)).1
    if computed = row.password_hash then
      (some row.id,
       ⟨db.rows.map (fun r =>
          if r.id = row.id then
            { r with last_login := some now, updated_at := now }
          else r),
        db.nextId⟩)
    else (none, db)

/-- A store failure such as sqlite failing to open or write the database
(`OperationalError`), as seen by the GUI layer. -/
inductive StoreErr where
  | storeUnavailable
deriving DecidableEq, Repr

/-- The store operations `LoginFrame._submit` in `app.py` can invoke, as
an oracle so a submission can be analysed under any store behaviour,
including failures: `verifyR` is `auth_verify_user`, `getR` is the
truthiness of `auth_get_user`, `createR` is `auth_create_user`. -/
structure StoreOracle where
  verifyR : String → String → Except StoreErr (Option Nat)
  getR : String → Except StoreErr Bool
  createR : String → String → Except StoreErr Unit

/-- A record of one store round-trip performed during a submission. -/
inductive StoreCall where
  | verifyCall (u p : String)
  | getCall (u : String)
  | createCall (u p : String)
deriving DecidableEq, Repr

/-- `LoginFrame.mode` in `app.py`. -/
inductive Mode where
  | login
  | register
deriving DecidableEq, Repr

/-- Outcome of one `LoginFrame._submit` run: a message set into
`message_var`, a successful hand-off `_finalize(user_id, username)`, or a
store exception propagating out of the handler uncaught. -/
inductive SubmitResult where
  | msg (m : String)
  | success (uid : Nat) (username : String)
  | storeError (e : StoreErr)
deriving DecidableEq, Repr

/-- The message shown to the user by a submission outcome, if any. -/
def shownMessage : SubmitResult → Option String
  | .msg m => some m
  | _ => none

/-- `username.replace("_", "")` as used in the registration charset check
of `LoginFrame._submit`. -/
def removeUnderscores (s : String) : String :=
  ⟨s.data.filter (fun c => c ≠ '_')⟩

/-- Python `str.isalnum()` (ASCII fragment): non-empty and every character
alphanumeric. -/
def pyStrIsAlnum (s : String) : Bool :=
  !s.data.isEmpty && s.data.all Char.isAlphanum

/-- `LoginFrame._submit` of `app.py` (lines 1111-1148), with the store
calls factored through an oracle and each performed round-trip recorded in
order.  The source wraps none of the store calls in `try/except`, so a
store error ends the run as `storeError` with no message set. -/
def submit (st : StoreOracle) (mode : Mode)
    (usernameRaw password confirm : String) :
    List StoreCall × SubmitResult :=
  let username := pyNormalize usernameRaw
  match mode with
  | .login =>
    if username = "" || password = "" then
      ([], .msg "Enter both username and password.")
    else
      match st.verifyR username password with
      | .error e => ([.verifyCall username password], .storeError e)
      | .ok none =>
        ([.verifyCall username password], .msg "Invalid username or password.")
      | .ok (some uid) =>
        ([.verifyCall username password], .success uid username)
  | .register =>
    if username.length < 3 then
      ([], .msg "Username must be at least 3 characters.")
    else if !pyStrIsAlnum (removeUnderscores username) then
      ([], .msg "Use letters, numbers, and underscores only.")
    else if password.length < 8 then
      ([], .msg "Password must be at least 8 characters.")
    else if password ≠ confirm then
      ([], .msg "Passwords do not match.")
    else
      match st.getR username with
      | .error e => ([.getCall username], .storeError e)
      | .ok true =>
        ([.getCall username], .msg "Username already exists. Choose another.")
      | .ok false =>
        match st.createR username password with
        | .error e =>
          ([.getCall username, .createCall username password], .storeError e)
        | .ok _ =>
          match st.verifyR username password with
          | .error e =>
            ([.getCall username, .createCall username password,
              .verifyCall username password], .storeError e)
          | .ok none =>
            ([.getCall username, .createCall username password,
              .verifyCall username password],
             .msg "Unexpected error during registration.")
          | .ok (some uid) =>
            ([.getCall username, .createCall username password,
              .verifyCall username password], .success uid username)

/-- The username-shape gate of the registration branch: the first two
checks of `_submit` combined (`len(username) >= 3` and
`username.replace("_", "").isalnum()`). -/
def usernameShapeOk (un : String) : Bool :=
  decide (3 ≤ un.length) && pyStrIsAlnum (removeUnderscores un)

/-- A store oracle with no users and no failures. -/
def stubStore : StoreOracle :=
  ⟨fun _ _ => .ok none, fun _ => .ok false, fun _ _ => .ok ()⟩

/-- A store oracle whose every operation fails (e.g. the database file
cannot be opened). -/
def downStore : StoreOracle :=
  ⟨fun _ _ => .error .storeUnavailable,
   fun _ => .error .storeUnavailable,
   fun _ _ => .error .storeUnavailable⟩

/-- A store oracle where the lookup pre-check still answers (no such
user) but writing — and any later verification — fails, as when the disk
fills between the two round-trips. -/
def downStoreAfterGet : StoreOracle :=
  ⟨fun _ _ => .error .storeUnavailable,
   fun _ => .ok false,
   fun _ _ => .error .storeUnavailable⟩

/-- The username shape the spec prescribes, in the spec's own words:
length at least 3 and matching the regular expression `[A-Za-z0-9_]+`
(here over the ASCII alphabet: every character a letter, digit, or
underscore).  For comparison against the shape the code checks. -/
def specUsernameShape (s : String) : Bool :=
  decide (3 ≤ s.length) &&
    !s.data.isEmpty && s.data.all (fun c => c.isAlphanum || c = '_')

/-- A JSON-like Python value as stored in the settings document
(`~/.s3_minio_manager.json`): what `json.loads` can yield and the code
inspects — strings, numbers, booleans, `None`, and objects. -/
inductive PyVal where
  | str (s : String)
  | num (n : Int)
  | bool (b : Bool)
  | pynone
  | dict (entries : List (String × PyVal))

/-- Python dict key lookup (`d.get(k)` / `d[k]`): first entry with the
key, if any. -/
def dictLookup (es : List (String × PyVal)) (k : String) : Option PyVal :=
  match es with
  | [] => none
  | e :: t => if e.1 = k then some e.2 else dictLookup t k

/-- Python dict assignment `d[k] = v`: replace the value in place if the
key exists, else append the new entry. -/
def dictInsert (es : List (String × PyVal)) (k : String) (v : PyVal) :
    List (String × PyVal) :=
  match es with
  | [] => [(k, v)]
  | e :: t => if e.1 = k then (k, v) :: t else e :: dictInsert t k v

/-- Python `d.pop(k, None)`: remove the entry with the key, if present. -/
def dictErase (es : List (String × PyVal)) (k : String) :
    List (String × PyVal) :=
  match es with
  | [] => []
  | e :: t => if e.1 = k then dictErase t k else e :: dictErase t k

/-- Python truthiness of a JSON-like value. -/
def pyTruthy : PyVal → Bool
  | .str s => decide (s ≠ "")
  | .num n => decide (n ≠ 0)
  | .bool b => b
  | .pynone => false
  | .dict es => !es.isEmpty

/-- Truthiness of `d.get(k)`: `None` (absent) is falsy. -/
def optTruthy : Option PyVal → Bool
  | some v => pyTruthy v
  | none => false

/-- The observable states of the settings file that `load_settings` in
`s3.py` distinguishes: absent, unreadable (`read_text` raising),
whitespace-only content, content `json.loads` rejects, or content parsing
to a JSON value. -/
inductive SettingsFile where
  | absent
  | unreadable
  | blank
  | malformed
  | holds (v : PyVal)

/-- `load_settings()` of `s3.py` (lines 403-413): returns the parsed
top-level object when the file holds one, and the empty map in every
other case — absent file, I/O error, blank content, a JSON parse error
(all swallowed by the enclosing `try/except`), or a top-level value that
is not a dict (`isinstance` check). It is total: no state of the file
makes it raise. -/
def load_settings : SettingsFile → List (String × PyVal)
  | .holds (.dict es) => es
  | _ => []

/-- `save_settings(data)` of `s3.py` (lines 416-423): serializes the full
map and replaces the file with it (`json.dumps` round-trips a dict
through `json.loads`); the follow-up `chmod` does not change the
content. -/
def save_settings (es : List (String × PyVal)) : SettingsFile :=
  .holds (.dict es)

/-- The `SESSION` object written by `LoginFrame._finalize` in `app.py`:
`{"username": ..., "token": ..., "expires_at": ...}`. -/
def sessionValue (username token expires : String) : PyVal :=
  .dict [("username", .str username), ("token", .str token),
         ("expires_at", .str expires)]

/-- The settings mutation of `LoginFrame._finalize` (app.py lines
1150-1167): on the loaded settings map, set `cfg["SESSION"]` to a fresh
session object when the user kept "stay signed in" checked, else
`cfg.pop("SESSION", None)`; the result is then passed to
`save_settings`. -/
def finalize_settings (keep : Bool) (username token expires : String)
    (cfg : List (String × PyVal)) : List (String × PyVal) :=
  if keep then dictInsert cfg "SESSION" (sessionValue username token expires)
  else dictErase cfg "SESSION"

/-- The session fast path of `_start_login` in `app.py` (lines
1412-1429), run at startup before any login UI exists.  `parseIso`
abstracts `datetime.fromisoformat` (`none` = `ValueError`), `now` is
`datetime.now()` on the same time axis, `db` is the auth store.  Every
exception inside the block — `.get` on a non-dict session value,
`fromisoformat` on a non-string or unparseable expiry, `auth_get_user` on
a non-string username — is caught by the enclosing `try/except: pass` and
embedded as the `none` fall-through to interactive login.  `some (id,
username)` is the direct transition to authenticated with the row's id
and the session's username.  It is split into three definitions below,
composed in `autoLogin`; this first one is
`sess = (cfg or {}).get("SESSION") or {}`: the `SESSION` value when
present and truthy, else the empty dict. -/
def sessionOf (cfg : List (String × PyVal)) : PyVal :=
  match dictLookup cfg "SESSION" with
  | some v => if pyTruthy v then v else .dict []
  | none => .dict []

/-- The last step of the fast path: `row = auth_get_user(username)` on
the session's `username` field — which raises (caught: `none`) when that
field is not a string — then `if row:`. -/
def userStep (db : AuthDB) : Option PyVal → Option (Nat × String)
  | some (.str us) =>
    match getUserRow db us with
    | some row => some (row.id, us)
    | none => none
  | _ => none

/-- The comparison step of the fast path: the strict `dt > now` on the
parsed expiry, or the caught `ValueError` when parsing failed. -/
def timeStep (now : Int) (db : AuthDB) (uo : Option PyVal) :
    Option Int → Option (Nat × String)
  | some t => if now < t then userStep db uo else none
  | none => none

/-- The expiry step of the fast path: `dt = fromisoformat(exp)` — which
raises (caught: `none`) when `exp` is not a string or does not parse —
then the strict comparison `dt > now`. -/
def expiryStep (parseIso : String → Option Int) (now : Int) (db : AuthDB)
    (uo : Option PyVal) : Option PyVal → Option (Nat × String)
  | some (.str s) => timeStep now db uo (parseIso s)
  | _ => none

/-- The fast path on the fields of a dict-shaped session: the
`if username and exp:` truthiness guard, then the expiry and user
steps. -/
def autoLoginEntries (parseIso : String → Option Int) (now : Int)
    (db : AuthDB) (entries : List (String × PyVal)) :
    Option (Nat × String) :=
  if optTruthy (dictLookup entries "username") &&
      optTruthy (dictLookup entries "expires_at") then
    expiryStep parseIso now db (dictLookup entries "username")
      (dictLookup entries "expires_at")
  else none

/-- The body of the fast path on the extracted session value: `.get` on a
non-dict raises (caught: `none`); otherwise the guarded parse, expiry
comparison, and user lookup. -/
def autoLoginSess (parseIso : String → Option Int) (now : Int)
    (db : AuthDB) : PyVal → Option (Nat × String)
  | .dict entries => autoLoginEntries parseIso now db entries
  | _ => none

/-- The complete fast path: `sess = (cfg or {}).get("SESSION") or {}`
followed by the guarded checks above. -/
def autoLogin (parseIso : String → Option Int) (now : Int) (db : AuthDB)
    (cfg : List (String × PyVal)) : Option (Nat × String) :=
  autoLoginSess parseIso now db (sessionOf cfg)

/-- A store whose only user record has the empty string as its
(normalized) username — creatable through `create_user("", ...)`, which
normalizes and inserts without any shape validation. -/
def emptyNameDb : AuthDB := ⟨[⟨1, "", "h", "s", 1, "c", "c", none⟩], 2⟩

/-- A settings document whose `SESSION` names that empty-string user with
an unexpired token. -/
def emptyNameCfg : List (String × PyVal) :=
  [("SESSION", .dict [("username", .str ""), ("token", .str "tk"),
                      ("expires_at", .str "F")])]

/-- An embedded `fromisoformat`: exactly one string parses, to time 1. -/
def futureOnlyParse : String → Option Int :=
  fun s => if s = "F" then some 1 else none

theorem create_user_mem_username
    (hashFn : String → String → Nat → String)
    (defaultIters : Nat) (freshSalt now : String)
    (db : AuthDB) (u p : String) (db2 : AuthDB)
    (h : create_user hashFn defaultIters freshSalt now db u p = .ok db2) :
    db2.rows.any (fun r => r.username = pyNormalize u) = true := by
  unfold create_user at h
  by_cases hc : db.rows.any (fun r => r.username = pyNormalize u) = true
  · simp [hc] at h
  · simp only [Bool.not_eq_true] at hc
    simp [hc] at h
    subst h
    simp [List.any_append]

theorem find_append_singleton (l : List UserRow) (p : UserRow → Bool)
    (x : UserRow) (h : l.any p = false) :
    (l ++ [x]).find? p = if p x then some x else none := by
  induction l with
  | nil => cases hpx : p x <;> simp [List.find?, hpx]
  | cons a t ih =>
    simp only [List.any_cons, Bool.or_eq_false_iff] at h
    simp only [List.cons_append, List.find?]
    rw [h.1]
    exact ih h.2

theorem verify_after_create_eq
    (hashFn : String → String → Nat → String)
    (k d : Nat) (freshSalt fs2 now now2 : String)
    (db db2 : AuthDB) (u p : String)
    (hc : create_user hashFn k freshSalt now db u p = .ok db2) :
    (verify_user hashFn d fs2 now2 db2 u p).1 = some db.nextId := by
  unfold create_user at hc
  by_cases ha : db.rows.any (fun r => r.username = pyNormalize u) = true
  · simp [ha] at hc
  · simp only [Bool.not_eq_true] at ha
    simp only [ha, Bool.false_eq_true, if_false, hash_password,
      Option.getD_none, Except.ok.injEq] at hc
    subst hc
    unfold verify_user
    rw [find_append_singleton _ _ _ ha]
    simp [hash_password]

theorem verify_after_create_ne
    (hashFn : String → String → Nat → String)
    (k d : Nat) (freshSalt fs2 now now2 : String)
    (db db2 : AuthDB) (u p q : String)
    (hc : create_user hashFn k freshSalt now db u p = .ok db2)
    (hq : hashFn q freshSalt k ≠ hashFn p freshSalt k) :
    (verify_user hashFn d fs2 now2 db2 u q).1 = none := by
  unfold create_user at hc
  by_cases ha : db.rows.any (fun r => r.username = pyNormalize u) = true
  · simp [ha] at hc
  · simp only [Bool.not_eq_true] at ha
    simp only [ha, Bool.false_eq_true, if_false, hash_password,
      Option.getD_none, Except.ok.injEq] at hc
    subst hc
    unfold verify_user
    rw [find_append_singleton _ _ _ ha]
    simp [hash_password, hq]

/-- C1: if `create_user u p` succeeds then `verify_user u p` returns the
created user's id (the `AUTOINCREMENT` value assigned at insertion), and
for any other password `q` whose derived key differs from that of `p`
(the collision-freeness the KDF is relied upon for), `verify_user u q`
returns invalid (`None`). -/
theorem C1_create_verify_roundtrip
    (hashFn : String → String → Nat → String)
    (k d d2 : Nat) (freshSalt fs2 fs3 now now2 now3 : String)
    (db db2 : AuthDB) (u p q : String)
    (hc : create_user hashFn k freshSalt now db u p = .ok db2)
    (_hpq : q ≠ p)
    (hq : hashFn q freshSalt k ≠ hashFn p freshSalt k) :
    (verify_user hashFn d fs2 now2 db2 u p).1 = some db.nextId ∧
    (verify_user hashFn d2 fs3 now3 db2 u q).1 = none :=
  ⟨verify_after_create_eq hashFn k d freshSalt fs2 now now2 db db2 u p hc,
   verify_after_create_ne hashFn k d2 freshSalt fs3 now now3 db db2 u p q hc hq⟩

theorem C1_create_verify_roundtrip_witness :
    (verify_user (fun pw _ _ => pw) PBKDF2_ITERATIONS "s2" "t2"
      ⟨[⟨1, "alice", "pw1", "s1", PBKDF2_ITERATIONS, "t1", "t1", none⟩], 2⟩
      "Alice " "pw1").1 = some 1 ∧
    (verify_user (fun pw _ _ => pw) PBKDF2_ITERATIONS "s3" "t3"
      ⟨[⟨1, "alice", "pw1", "s1", PBKDF2_ITERATIONS, "t1", "t1", none⟩], 2⟩
      "Alice " "pw2").1 = none :=
  C1_create_verify_roundtrip (fun pw _ _ => pw)
    PBKDF2_ITERATIONS PBKDF2_ITERATIONS PBKDF2_ITERATIONS
    "s1" "s2" "s3" "t1" "t2" "t3"
    ⟨[], 1⟩ ⟨[⟨1, "alice", "pw1", "s1", PBKDF2_ITERATIONS, "t1", "t1", none⟩], 2⟩
    "Alice " "pw1" "pw2" (by decide) (by decide) (by decide)

/-- C2: verification depends only on the stored per-row salt and iteration
count: (1) the result of `verify_user` is independent of the module default
`PBKDF2_ITERATIONS` in scope and of any fresh salt; (2) for a stored row
`r`, the outcome is exactly the comparison of `hashFn password r.salt
r.iterations` with `r.password_hash` (constant-time `compare_digest`
modelled as equality); (3) a record created when the default cost was any
`k` still verifies under any current default `d`. -/
theorem C2_verify_uses_stored_params
    (hashFn : String → String → Nat → String)
    (d1 d2 k d : Nat) (fs1 fs2 fs3 fs4 : String)
    (now now2 now3 : String)
    (db db2 dbc : AuthDB) (u uc p pc : String) (r : UserRow)
    (hr : getUserRow db u = some r)
    (hc : create_user hashFn k fs3 now2 dbc uc pc = .ok db2) :
    verify_user hashFn d1 fs1 now db u p = verify_user hashFn d2 fs2 now db u p ∧
    (verify_user hashFn d1 fs1 now db u p).1 =
      (if hashFn p r.salt r.iterations = r.password_hash
       then some r.id else none) ∧
    (verify_user hashFn d fs4 now3 db2 uc pc).1 = some dbc.nextId := by
  refine ⟨?_, ?_, verify_after_create_eq hashFn k d fs3 fs4 now2 now3 dbc db2 uc pc hc⟩
  · unfold verify_user
    cases db.rows.find? (fun r => r.username = pyNormalize u) <;>
      simp [hash_password]
  · unfold getUserRow at hr
    unfold verify_user
    rw [hr]
    simp only [hash_password, Option.getD_some]
    split <;> simp_all

theorem C2_verify_uses_stored_params_witness :
    verify_user (fun pw s n => pw ++ s ++ toString n) 1 "x1" "t9"
        ⟨[⟨1, "bob", "pws77", "s", 77, "t1", "t1", none⟩], 2⟩ "bob" "pw" =
      verify_user (fun pw s n => pw ++ s ++ toString n) 2 "x2" "t9"
        ⟨[⟨1, "bob", "pws77", "s", 77, "t1", "t1", none⟩], 2⟩ "bob" "pw" ∧
    (verify_user (fun pw s n => pw ++ s ++ toString n) 1 "x1" "t9"
        ⟨[⟨1, "bob", "pws77", "s", 77, "t1", "t1", none⟩], 2⟩ "bob" "pw").1 =
      (if (fun pw s n => pw ++ s ++ toString n) "pw" "s" 77 = "pws77"
       then some 1 else none) ∧
    (verify_user (fun pw s n => pw ++ s ++ toString n) 99 "x4" "t9"
        ⟨[⟨5, "carol", "pcsc3", "sc", 3, "t2", "t2", none⟩], 6⟩
        "carol" "pc").1 = some 5 :=
  C2_verify_uses_stored_params (fun pw s n => pw ++ s ++ toString n)
    1 2 3 99 "x1" "x2" "sc" "x4" "t9" "t2" "t9"
    ⟨[⟨1, "bob", "pws77", "s", 77, "t1", "t1", none⟩], 2⟩
    ⟨[⟨5, "carol", "pcsc3", "sc", 3, "t2", "t2", none⟩], 6⟩
    ⟨[], 5⟩ "bob" "carol" "pw" "pc"
    ⟨1, "bob", "pws77", "s", 77, "t1", "t1", none⟩
    (by decide) (by decide)

/-- C3: after a successful `create_user u1 p1`, a second `create_user u2 p2`
with `u2` normalizing (trim + lower-case) to the same string fails with
`DuplicateUser` — in the source not by any pre-check inside `create_user`
(there is none) but by the `UNIQUE` constraint on the `username` column,
embedded as the insert's uniqueness guard. -/
theorem C3_duplicate_username_rejected
    (hashFn : String → String → Nat → String)
    (k1 k2 : Nat) (fs1 fs2 now1 now2 : String)
    (db db2 : AuthDB) (u1 p1 u2 p2 : String)
    (hc : create_user hashFn k1 fs1 now1 db u1 p1 = .ok db2)
    (hn : pyNormalize u2 = pyNormalize u1) :
    create_user hashFn k2 fs2 now2 db2 u2 p2 = .error .duplicateUser := by
  have hm := create_user_mem_username hashFn k1 fs1 now1 db u1 p1 db2 hc
  unfold create_user
  rw [hn]
  simp [hm]

theorem C3_duplicate_username_rejected_witness :
    create_user (fun pw s n => pw ++ s ++ toString n) 7 "f2" "t2"
      ⟨[⟨1, "bob", "p1f17", "f1", 7, "t1", "t1", none⟩], 2⟩
      " BOB " "p2" = .error .duplicateUser :=
  C3_duplicate_username_rejected (fun pw s n => pw ++ s ++ toString n)
    7 7 "f1" "f2" "t1" "t2" ⟨[], 1⟩
    ⟨[⟨1, "bob", "p1f17", "f1", 7, "t1", "t1", none⟩], 2⟩
    "Bob" "p1" " BOB " "p2" (by decide) (by decide)

/-- C5: registration validation runs in the source's fixed order —
username length, username charset, password length, confirmation match,
then the taken-username pre-check — short-circuiting on the first failure;
every failure in the first four checks produces its specific message with
an empty store-call trace (zero store round-trips), and a taken username
costs exactly the one `get_user` pre-check. -/
theorem C5_validation_order (st : StoreOracle) (u p c : String) :
    ((pyNormalize u).length < 3 →
      submit st .register u p c =
        ([], .msg "Username must be at least 3 characters.")) ∧
    (¬(pyNormalize u).length < 3 →
      pyStrIsAlnum (removeUnderscores (pyNormalize u)) = false →
      submit st .register u p c =
        ([], .msg "Use letters, numbers, and underscores only.")) ∧
    (¬(pyNormalize u).length < 3 →
      pyStrIsAlnum (removeUnderscores (pyNormalize u)) = true →
      p.length < 8 →
      submit st .register u p c =
        ([], .msg "Password must be at least 8 characters.")) ∧
    (¬(pyNormalize u).length < 3 →
      pyStrIsAlnum (removeUnderscores (pyNormalize u)) = true →
      ¬p.length < 8 → p ≠ c →
      submit st .register u p c = ([], .msg "Passwords do not match.")) ∧
    (¬(pyNormalize u).length < 3 →
      pyStrIsAlnum (removeUnderscores (pyNormalize u)) = true →
      ¬p.length < 8 → p = c → st.getR (pyNormalize u) = .ok true →
      submit st .register u p c =
        ([.getCall (pyNormalize u)],
         .msg "Username already exists. Choose another.")) := by
  refine ⟨?_, ?_, ?_, ?_, ?_⟩
  · intro h1
    simp [submit, h1]
  · intro h1 h2
    simp [submit, h1, h2]
  · intro h1 h2 h3
    simp [submit, h1, h2, h3]
  · intro h1 h2 h3 h4
    simp [submit, h1, h2, h3, h4]
  · intro h1 h2 h3 h4 h5
    subst h4
    simp [submit, h1, h2, h3, h5]

theorem C5_validation_order_witness :
    submit stubStore .register "ab" "password1" "password2" =
      ([], .msg "Username must be at least 3 characters.") :=
  (C5_validation_order stubStore "ab" "password1" "password2").1 (by decide)

/-- C4 counterexample: with the store down, a login submission ends in a
propagating store error with no message set into `message_var` — the
source wraps none of the store calls of `_submit` in `try/except`, so no
generic error message is shown, contrary to the claim. -/
theorem C4_counterexample :
    (submit downStore .login "bob" "secret123" "").2 =
      .storeError .storeUnavailable ∧
    shownMessage (submit downStore .login "bob" "secret123" "").2 =
      none := by
  constructor <;> rfl

/-- C4 (amended): a store error inside `verify_user` (login submit) or
`create_user` (registration submit, after local validation and the
availability pre-check) propagates out of `_submit` uncaught: the outcome
is the raw store error, no message of any kind is set, and no success
hand-off (`_finalize`) happens, so the user remains un-authenticated; the
enclosing toolkit event loop, not the flow, is what keeps the process
alive and the form interactive. -/
theorem C4_store_error_propagates (st : StoreOracle) (u p c : String)
    (e e2 : StoreErr)
    (hu : pyNormalize u ≠ "") (hp : p ≠ "")
    (hv : st.verifyR (pyNormalize u) p = .error e)
    (h1 : ¬(pyNormalize u).length < 3)
    (h2 : pyStrIsAlnum (removeUnderscores (pyNormalize u)) = true)
    (h3 : ¬p.length < 8) (h4 : p = c)
    (hg : st.getR (pyNormalize u) = .ok false)
    (hcr : st.createR (pyNormalize u) p = .error e2) :
    submit st .login u p c =
      ([.verifyCall (pyNormalize u) p], .storeError e) ∧
    submit st .register u p c =
      ([.getCall (pyNormalize u), .createCall (pyNormalize u) p],
       .storeError e2) ∧
    shownMessage (submit st .login u p c).2 = none ∧
    shownMessage (submit st .register u p c).2 = none ∧
    (∀ uid un2, (submit st .login u p c).2 ≠ .success uid un2) ∧
    (∀ uid un2, (submit st .register u p c).2 ≠ .success uid un2) := by
  subst h4
  have hl : submit st .login u p p =
      ([.verifyCall (pyNormalize u) p], .storeError e) := by
    simp [submit, hu, hp, hv]
  have hr : submit st .register u p p =
      ([.getCall (pyNormalize u), .createCall (pyNormalize u) p],
       .storeError e2) := by
    simp [submit, h1, h2, h3, hg, hcr]
  refine ⟨hl, hr, ?_, ?_, ?_, ?_⟩ <;> simp [hl, hr, shownMessage]

theorem C4_store_error_propagates_witness :
    submit downStoreAfterGet .login "newuser" "password1" "password1" =
      ([.verifyCall "newuser" "password1"], .storeError .storeUnavailable) ∧
    submit downStoreAfterGet .register "newuser" "password1" "password1" =
      ([.getCall "newuser", .createCall "newuser" "password1"],
       .storeError .storeUnavailable) ∧
    shownMessage
      (submit downStoreAfterGet .login "newuser" "password1" "password1").2 =
      none ∧
    shownMessage
      (submit downStoreAfterGet .register "newuser" "password1" "password1").2 =
      none ∧
    (∀ uid un2,
      (submit downStoreAfterGet .login "newuser" "password1" "password1").2 ≠
        .success uid un2) ∧
    (∀ uid un2,
      (submit downStoreAfterGet .register "newuser" "password1" "password1").2 ≠
        .success uid un2) :=
  C4_store_error_propagates downStoreAfterGet "newuser" "password1" "password1"
    .storeUnavailable .storeUnavailable (by decide) (by decide) (by rfl)
    (by decide) (by decide) (by decide) (by rfl) (by rfl) (by rfl)

/-- C6 counterexample: the username consisting of three underscores has
length 3 and matches `[A-Za-z0-9_]+`, yet the code's check
`username.replace("_", "").isalnum()` rejects it — `replace` leaves the
empty string and `"".isalnum()` is false — so `_submit` reports the
charset message. -/
theorem C6_counterexample :
    specUsernameShape "___" = true ∧
    usernameShapeOk "___" = false ∧
    submit stubStore .register "___" "password1" "password1" =
      ([], .msg "Use letters, numbers, and underscores only.") := by
  refine ⟨by decide, by decide, by decide⟩

/-- C6 (amended): the username-shape gate of the registration branch
passes iff the normalized username has length at least 3, contains at
least one non-underscore character, and every non-underscore character is
alphanumeric; when the gate fails, the submission stops with one of the
two username messages and performs no store round-trip. -/
theorem C6_username_shape_characterization
    (st : StoreOracle) (u p c : String) :
    (usernameShapeOk (pyNormalize u) = true ↔
      (3 ≤ (pyNormalize u).length ∧
       (∃ ch ∈ (pyNormalize u).data, ch ≠ '_') ∧
       (∀ ch ∈ (pyNormalize u).data, ch ≠ '_' → ch.isAlphanum = true))) ∧
    (usernameShapeOk (pyNormalize u) = false →
      submit st .register u p c =
        ([], .msg "Username must be at least 3 characters.") ∨
      submit st .register u p c =
        ([], .msg "Use letters, numbers, and underscores only.")) := by
  constructor
  · simp [usernameShapeOk, pyStrIsAlnum, removeUnderscores,
      List.isEmpty_iff, List.filter_eq_nil_iff, List.all_eq_true,
      List.mem_filter]
    intro _ x hx hxne
    constructor
    · intro h ch hch hne
      exact (h ch hch).resolve_left hne
    · intro h ch hch
      exact or_iff_not_imp_left.mpr (h ch hch)
  · intro hfail
    simp only [usernameShapeOk, Bool.and_eq_false_iff,
      decide_eq_false_iff_not, not_le] at hfail
    rcases hfail with hlen | hcs
    · left
      simp [submit, hlen]
    · by_cases hlen : (pyNormalize u).length < 3
      · left
        simp [submit, hlen]
      · right
        simp [submit, hlen, hcs]

theorem C6_username_shape_characterization_witness :
    submit stubStore .register "hi" "password1" "password1" =
      ([], .msg "Username must be at least 3 characters.") ∨
    submit stubStore .register "hi" "password1" "password1" =
      ([], .msg "Use letters, numbers, and underscores only.") :=
  (C6_username_shape_characterization stubStore "hi" "password1"
    "password1").2 (by decide)

theorem dictLookup_insert_ne (es : List (String × PyVal)) (k k2 : String)
    (v : PyVal) (h : k ≠ k2) :
    dictLookup (dictInsert es k2 v) k = dictLookup es k := by
  induction es with
  | nil => simp [dictInsert, dictLookup, Ne.symm h]
  | cons e t ih =>
    by_cases he : e.1 = k2
    · simp [dictInsert, dictLookup, he, Ne.symm h]
    · simp only [dictInsert, he, if_false]
      by_cases hek : e.1 = k
      · simp [dictLookup, hek]
      · simp [dictLookup, hek, ih]

theorem dictLookup_erase_ne (es : List (String × PyVal)) (k k2 : String)
    (h : k ≠ k2) :
    dictLookup (dictErase es k2) k = dictLookup es k := by
  induction es with
  | nil => rfl
  | cons e t ih =>
    simp only [dictErase]
    by_cases he : e.1 = k2
    · have hek : ¬e.1 = k := by rw [he]; exact fun hh => h hh.symm
      rw [if_pos he]
      simp only [dictLookup]
      rw [if_neg hek]
      exact ih
    · rw [if_neg he]
      simp only [dictLookup]
      by_cases hek : e.1 = k
      · rw [if_pos hek, if_pos hek]
      · rw [if_neg hek, if_neg hek]
        exact ih

theorem dictLookup_erase_self (es : List (String × PyVal)) (k : String) :
    dictLookup (dictErase es k) k = none := by
  induction es with
  | nil => rfl
  | cons e t ih =>
    simp only [dictErase]
    by_cases he : e.1 = k
    · rw [if_pos he]
      exact ih
    · rw [if_neg he]
      simp only [dictLookup]
      rw [if_neg he]
      exact ih

/-- C9: writing a session on successful authentication is read-merge-write
on the `SESSION` key only: for any state of the settings file, after
`load_settings` → `_finalize`'s session mutation → `save_settings` →
`load_settings`, every key other than `SESSION` maps to exactly the value
it had in the originally loaded document, whether or not the user opted
to stay signed in. -/
theorem C9_sibling_keys_preserved (fs : SettingsFile) (keep : Bool)
    (username token expires k : String) (hk : k ≠ "SESSION") :
    dictLookup
      (load_settings (save_settings
        (finalize_settings keep username token expires (load_settings fs))))
      k = dictLookup (load_settings fs) k := by
  show dictLookup (finalize_settings keep username token expires
    (load_settings fs)) k = dictLookup (load_settings fs) k
  unfold finalize_settings
  by_cases hkeep : keep
  · simp only [hkeep, if_true]
    exact dictLookup_insert_ne _ _ _ _ hk
  · simp only [hkeep, if_false]
    exact dictLookup_erase_ne _ _ _ hk

theorem C9_sibling_keys_preserved_witness :
    dictLookup
      (load_settings (save_settings
        (finalize_settings true "bob" "tok" "2026-01-01"
          (load_settings (save_settings
            [("AWS_REGION", .str "us-east-1"),
             ("SESSION", .str "stale")])))))
      "AWS_REGION" =
      dictLookup
        (load_settings (save_settings
          [("AWS_REGION", .str "us-east-1"), ("SESSION", .str "stale")]))
        "AWS_REGION" :=
  C9_sibling_keys_preserved
    (save_settings
      [("AWS_REGION", .str "us-east-1"), ("SESSION", .str "stale")])
    true "bob" "tok" "2026-01-01" "AWS_REGION" (by decide)

/-- C10: on a successful authentication without opting into staying signed
in, `_finalize` actively removes any pre-existing `SESSION` entry
(`cfg.pop("SESSION", None)`) before saving: the saved document has no
`SESSION` key, whatever the loaded document contained. -/
theorem C10_session_removed_when_not_kept (username token expires : String)
    (cfg : List (String × PyVal)) :
    dictLookup (finalize_settings false username token expires cfg)
      "SESSION" = none := by
  unfold finalize_settings
  simp only [if_false, Bool.false_eq_true]
  exact dictLookup_erase_self cfg "SESSION"

theorem sessionOf_eq_dict (cfg : List (String × PyVal))
    (entries : List (String × PyVal))
    (hs : dictLookup cfg "SESSION" = some (.dict entries)) :
    sessionOf cfg = .dict entries := by
  unfold sessionOf
  rw [hs]
  by_cases he : entries.isEmpty
  · have hnil : entries = [] := by simpa [List.isEmpty_iff] using he
    subst hnil
    simp [pyTruthy]
  · simp [pyTruthy, he]

/-- C8: `load_settings` is total (embedded as a function, it can only
return) and yields a map for every file state: the empty map when the
file is absent, unreadable, blank, unparseable, or holds a non-dict
top-level value, and the parsed object otherwise; and a present-but-
malformed `SESSION` object — missing `username`, missing `expires_at`, or
an `expires_at` that `fromisoformat` rejects — makes the startup fast
path fall through to interactive login (`autoLogin` is `none`) instead of
erroring. -/
theorem C8_load_total_malformed_session_falls_through :
    (load_settings .absent = [] ∧ load_settings .unreadable = [] ∧
     load_settings .blank = [] ∧ load_settings .malformed = []) ∧
    (∀ es, load_settings (.holds (.dict es)) = es) ∧
    (∀ v, (∀ es, v ≠ .dict es) → load_settings (.holds v) = []) ∧
    (∀ parseIso now db cfg entries,
      dictLookup cfg "SESSION" = some (.dict entries) →
      dictLookup entries "username" = none →
      autoLogin parseIso now db cfg = none) ∧
    (∀ parseIso now db cfg entries,
      dictLookup cfg "SESSION" = some (.dict entries) →
      dictLookup entries "expires_at" = none →
      autoLogin parseIso now db cfg = none) ∧
    (∀ parseIso now db cfg entries s,
      dictLookup cfg "SESSION" = some (.dict entries) →
      dictLookup entries "expires_at" = some (.str s) →
      parseIso s = none →
      autoLogin parseIso now db cfg = none) := by
  refine ⟨⟨rfl, rfl, rfl, rfl⟩, fun es => rfl, ?_, ?_, ?_, ?_⟩
  · intro v hv
    match v with
    | .str s => rfl
    | .num n => rfl
    | .bool b => rfl
    | .pynone => rfl
    | .dict es => exact absurd rfl (hv es)
  · intro parseIso now db cfg entries hs hu
    unfold autoLogin
    rw [sessionOf_eq_dict cfg entries hs]
    simp [autoLoginSess, autoLoginEntries, hu, optTruthy]
  · intro parseIso now db cfg entries hs hexp
    unfold autoLogin
    rw [sessionOf_eq_dict cfg entries hs]
    simp [autoLoginSess, autoLoginEntries, hexp, optTruthy]
  · intro parseIso now db cfg entries s hs hexp hp
    unfold autoLogin
    rw [sessionOf_eq_dict cfg entries hs]
    simp [autoLoginSess, autoLoginEntries, expiryStep, timeStep, hexp,
      optTruthy, hp]

theorem C8_load_total_malformed_session_falls_through_witness :
    autoLogin (fun _ => none) 0 ⟨[], 1⟩
      [("SESSION", .dict [("username", .str "al"),
                          ("expires_at", .str "not-a-date")])] = none :=
  C8_load_total_malformed_session_falls_through.2.2.2.2.2
    (fun _ => none) 0 ⟨[], 1⟩
    [("SESSION", .dict [("username", .str "al"),
                        ("expires_at", .str "not-a-date")])]
    [("username", .str "al"), ("expires_at", .str "not-a-date")]
    "not-a-date" rfl rfl rfl

/-- C7 counterexample: at `now = 0` the stored session's `expires_at`
parses to time 1, strictly after now, and its `username` resolves to an
existing user record (the empty-named user), yet the startup fast path
does not auto-authenticate: the code's `if username and exp:` truthiness
guard rejects the empty username, so the claimed "if and only if"
fails. -/
theorem C7_counterexample :
    dictLookup emptyNameCfg "SESSION" =
      some (.dict [("username", .str ""), ("token", .str "tk"),
                   ("expires_at", .str "F")]) ∧
    dictLookup [("username", PyVal.str ""), ("token", PyVal.str "tk"),
                ("expires_at", PyVal.str "F")] "expires_at" =
      some (.str "F") ∧
    futureOnlyParse "F" = some 1 ∧ (0 : Int) < 1 ∧
    dictLookup [("username", PyVal.str ""), ("token", PyVal.str "tk"),
                ("expires_at", PyVal.str "F")] "username" =
      some (.str "") ∧
    getUserRow emptyNameDb "" = some ⟨1, "", "h", "s", 1, "c", "c", none⟩ ∧
    autoLogin futureOnlyParse 0 emptyNameDb emptyNameCfg = none :=
  ⟨rfl, rfl, rfl, by decide, rfl, rfl, rfl⟩

/-- C7 (amended): given that `fromisoformat` rejects the empty string,
the startup fast path transitions directly to authenticated — returning
the record's id and the session's username — if and only if the settings
hold a `SESSION` object whose `username` is a non-empty string resolving
to an existing user record and whose `expires_at` is a string parsing to
a time strictly after now.  In particular an expiry even one second in
the past fails (`now < t` is strict) and one in the future succeeds when
the user still exists and the username is non-empty. -/
theorem C7_autologin_characterization
    (parseIso : String → Option Int) (now : Int) (db : AuthDB)
    (cfg : List (String × PyVal)) (i : Nat) (us : String)
    (hpe : parseIso "" = none) :
    autoLogin parseIso now db cfg = some (i, us) ↔
      ∃ entries s t row,
        dictLookup cfg "SESSION" = some (.dict entries) ∧
        dictLookup entries "username" = some (.str us) ∧ us ≠ "" ∧
        dictLookup entries "expires_at" = some (.str s) ∧
        parseIso s = some t ∧ now < t ∧
        getUserRow db us = some row ∧ i = row.id := by
  constructor
  · intro h
    unfold autoLogin at h
    rcases hs : dictLookup cfg "SESSION" with _ | v
    · rw [show sessionOf cfg = .dict [] by unfold sessionOf; rw [hs]] at h
      simp [autoLoginSess, autoLoginEntries, dictLookup, optTruthy] at h
    · rcases v with s0 | n0 | b0 | _ | entries
      · rw [show sessionOf cfg =
            (if pyTruthy (.str s0) then PyVal.str s0 else .dict []) by
            unfold sessionOf; rw [hs]] at h
        by_cases ht : pyTruthy (.str s0)
        · simp [ht, autoLoginSess] at h
        · simp [ht, autoLoginSess, autoLoginEntries, dictLookup,
            optTruthy] at h
      · rw [show sessionOf cfg =
            (if pyTruthy (.num n0) then PyVal.num n0 else .dict []) by
            unfold sessionOf; rw [hs]] at h
        by_cases ht : pyTruthy (.num n0)
        · simp [ht, autoLoginSess] at h
        · simp [ht, autoLoginSess, autoLoginEntries, dictLookup,
            optTruthy] at h
      · rw [show sessionOf cfg =
            (if pyTruthy (.bool b0) then PyVal.bool b0 else .dict []) by
            unfold sessionOf; rw [hs]] at h
        by_cases ht : pyTruthy (.bool b0)
        · simp [ht, autoLoginSess] at h
        · simp [ht, autoLoginSess, autoLoginEntries, dictLookup,
            optTruthy] at h
      · rw [show sessionOf cfg = .dict [] by
            unfold sessionOf; rw [hs]; rfl] at h
        simp [autoLoginSess, autoLoginEntries, dictLookup, optTruthy] at h
      · rw [sessionOf_eq_dict cfg entries hs] at h
        simp only [autoLoginSess] at h
        unfold autoLoginEntries at h
        rcases hu : dictLookup entries "username" with _ | uv
        · rw [hu] at h
          simp [optTruthy] at h
        · rcases heo : dictLookup entries "expires_at" with _ | ev
          · rw [hu, heo] at h
            simp [optTruthy] at h
          · rw [hu, heo] at h
            by_cases hcond : (optTruthy (some uv) && optTruthy (some ev))
                = true
            · rw [if_pos hcond] at h
              rcases ev with s | n0 | b0 | _ | es0
              · simp only [expiryStep] at h
                rcases hp : parseIso s with _ | t
                · rw [hp] at h
                  simp [timeStep] at h
                · rw [hp] at h
                  simp only [timeStep] at h
                  by_cases hlt : now < t
                  · rw [if_pos hlt] at h
                    rcases uv with us0 | n1 | b1 | _ | es1
                    · simp only [userStep] at h
                      rcases hr : getUserRow db us0 with _ | row
                      · rw [hr] at h
                        simp at h
                      · rw [hr] at h
                        simp only [Option.some.injEq, Prod.mk.injEq] at h
                        obtain ⟨hi, hus⟩ := h
                        subst hus
                        have husne : us0 ≠ "" := by
                          have := (Bool.and_eq_true _ _).mp hcond
                          simpa [optTruthy, pyTruthy] using this.1
                        exact ⟨entries, s, t, row, rfl, hu, husne, heo,
                               hp, hlt, hr, hi.symm⟩
                    · simp [userStep] at h
                    · simp [userStep] at h
                    · simp [userStep] at h
                    · simp [userStep] at h
                  · rw [if_neg hlt] at h
                    simp at h
              · simp [expiryStep] at h
              · simp [expiryStep] at h
              · simp [expiryStep] at h
              · simp [expiryStep] at h
            · rw [if_neg hcond] at h
              simp at h
  · rintro ⟨entries, s, t, row, hs, hu, hus, heo, hp, hlt, hr, hi⟩
    subst hi
    have hsne : s ≠ "" := by
      intro hcontra
      rw [hcontra, hpe] at hp
      cases hp
    unfold autoLogin
    rw [sessionOf_eq_dict cfg entries hs]
    simp only [autoLoginSess]
    unfold autoLoginEntries
    rw [hu, heo]
    rw [if_pos (by simp [optTruthy, pyTruthy, hus, hsne])]
    simp only [expiryStep]
    rw [hp]
    simp only [timeStep]
    rw [if_pos hlt]
    simp only [userStep]
    rw [hr]

theorem C7_autologin_characterization_witness :
    autoLogin futureOnlyParse 0
      ⟨[⟨1, "bob", "h", "s", 1, "c", "c", none⟩], 2⟩
      [("SESSION", .dict [("username", .str "bob"),
                          ("expires_at", .str "F")])] = some (1, "bob") :=
  (C7_autologin_characterization futureOnlyParse 0
    ⟨[⟨1, "bob", "h", "s", 1, "c", "c", none⟩], 2⟩
    [("SESSION", .dict [("username", .str "bob"),
                        ("expires_at", .str "F")])] 1 "bob" rfl).2
    ⟨[("username", .str "bob"), ("expires_at", .str "F")], "F", 1,
     ⟨1, "bob", "h", "s", 1, "c", "c", none⟩,
     rfl, rfl, by decide, rfl, rfl, by decide, rfl, rfl⟩
